import Mathlib

/-!
Shallow embedding of the FastAPI CRUD service in `app.py`.

The service stores rows of a single table `items` and exposes six routes.
We model the table as a list of rows plus the autoincrement sequence of the
`id` primary-key column, requests as parsed pydantic payloads (tracking which
fields were explicitly present, pydantic's "set" notion used by
`model_dump(exclude_unset=True)`), and each route handler as a function from
a store and a request to a response and a new store.  Prices are JSON
numbers; no arithmetic is ever performed on them in the source, so they are
embedded as rationals.
-/

namespace Fast

/-- A stored row of the `items` table (`ItemDB` in `app.py`).  Every column
except the primary key `id` is declared without `nullable=False`, hence is
nullable in the database; this is reflected by `Option` on all non-id
fields. -/
structure ItemDB where
  id : Int
  name : Option String
  description : Option String
  price : Option Rat
  available : Option Bool
deriving DecidableEq

/-- The database state: the rows of the `items` table in insertion order,
plus the value the autoincrement sequence for `id` will hand out next. -/
structure Store where
  rows : List ItemDB
  nextId : Int
deriving DecidableEq

/-- A fresh database, as produced by `Base.metadata.create_all`. -/
def Store.empty : Store := ⟨[], 1⟩

/-- `select(ItemDB).filter(ItemDB.id == item_id)` followed by
`scalar_one_or_none()`: the row with the given primary key, if any. -/
def Store.find (s : Store) (item_id : Int) : Option ItemDB :=
  s.rows.find? (fun r => r.id == item_id)

/-- The parsed pydantic `Item` model (the full payload, used for POST and
PUT).  `name` and `price` are required, so a successfully validated body
always carries them.  For the optional fields the outer `Option` records
whether the field was explicitly present in the JSON body (pydantic "set"):
`none` means omitted.  `id` and `description` are `Optional` in the model,
so a present field may still hold JSON null, hence the inner `Option`;
`available` is a plain `bool` with default `True`, so a present value is a
boolean. -/
structure Item where
  id : Option (Option Int)
  name : String
  description : Option (Option String)
  price : Rat
  available : Option Bool
deriving DecidableEq

/-- The parsed pydantic `ItemUpdate` model (used for PATCH): every field
`Optional` with default `None`.  Outer `Option` = explicitly present in the
body, inner `Option` = the (nullable) value. -/
structure ItemUpdate where
  name : Option (Option String)
  description : Option (Option String)
  price : Option (Option Rat)
  available : Option (Option Bool)
deriving DecidableEq

/-- A JSON value, as far as the payloads of this service need: the bodies
of all routes are flat objects of primitives. -/
inductive JValue where
  | null
  | bool (b : Bool)
  | num (q : Rat)
  | str (s : String)
deriving DecidableEq

/-- A JSON object body: association list from key to value. -/
abbrev JObj := List (String × JValue)

/-- Look up a key in a JSON object. -/
def JObj.get (o : JObj) (k : String) : Option JValue :=
  (o.find? (fun p => p.1 == k)).map (fun p => p.2)

/-- pydantic validation of an `int` field: a JSON number with no fractional
part. -/
def asInt : JValue → Option Int
  | .num q => if q.den = 1 then some q.num else none
  | _ => none

/-- pydantic validation of a `str` field. -/
def asStr : JValue → Option String
  | .str s => some s
  | _ => none

/-- pydantic validation of a `float` field: any JSON number. -/
def asFloat : JValue → Option Rat
  | .num q => some q
  | _ => none

/-- pydantic validation of a `bool` field. -/
def asBool : JValue → Option Bool
  | .bool b => some b
  | _ => none

/-- Validate an `Optional[T]` model field against a body: absent is fine
(`some none`), JSON null is fine (`some (some none)`), otherwise the value
must validate as `T`. -/
def nullableField (f : JValue → Option α) (o : JObj) (k : String) :
    Option (Option (Option α)) :=
  match o.get k with
  | none => some none
  | some .null => some (some none)
  | some v => (f v).map (fun a => some (some a))

/-- Validate a non-`Optional` model field with a default: absent is fine,
but a present value (JSON null included) must validate as `T`. -/
def defaultedField (f : JValue → Option α) (o : JObj) (k : String) :
    Option (Option α) :=
  match o.get k with
  | none => some none
  | some v => (f v).map some

/-- Validate a required model field: it must be present and validate as
`T`. -/
def requiredField (f : JValue → Option α) (o : JObj) (k : String) :
    Option α :=
  (o.get k).bind f

/-- pydantic validation of a request body against the `Item` model.
Unknown keys are ignored (pydantic's default).  `none` is a validation
error, which FastAPI turns into a 422 response before the handler runs. -/
def parseItem (o : JObj) : Option Item := do
  let idv ← nullableField asInt o "id"
  let namev ← requiredField asStr o "name"
  let descv ← nullableField asStr o "description"
  let pricev ← requiredField asFloat o "price"
  let availv ← defaultedField asBool o "available"
  pure ⟨idv, namev, descv, pricev, availv⟩

/-- pydantic validation of a request body against the `ItemUpdate` model. -/
def parseItemUpdate (o : JObj) : Option ItemUpdate := do
  let namev ← nullableField asStr o "name"
  let descv ← nullableField asStr o "description"
  let pricev ← nullableField asFloat o "price"
  let availv ← nullableField asBool o "available"
  pure ⟨namev, descv, pricev, availv⟩

/-- An error response: `raise HTTPException(status_code=..., detail=...)`,
and also the responses the framework itself produces (422 on validation
failure, 500 on a database error). -/
structure HTTPException where
  status_code : Nat
  detail : String
deriving DecidableEq

/-- The HTTP status of a handler outcome: every successful return in
`app.py` is a plain 200. -/
def statusOf : Except HTTPException α → Nat
  | .ok _ => 200
  | .error e => e.status_code

/-- The output shape of `response_model=Item`: FastAPI re-validates the
returned row against the `Item` model, so a row with a NULL in `name`,
`price` or `available` cannot be serialized (a 500); `id` and `description`
may be null in the response. -/
structure ItemOut where
  id : Option Int
  name : String
  description : Option String
  price : Rat
  available : Bool
deriving DecidableEq

/-- Serialization of a stored row through `response_model=Item`. -/
def serialize (r : ItemDB) : Option ItemOut := do
  let namev ← r.name
  let pricev ← r.price
  let availv ← r.available
  pure ⟨some r.id, namev, r.description, pricev, availv⟩

/-- `GET /`: `root` returns the fixed message. -/
def root : String := "Service is running"

/-- `GET /items`: `get_items` returns every row. -/
def get_items (s : Store) : List ItemDB := s.rows

/-- `GET /items/(item_id)`: `get_item` looks the row up by primary key and
raises `HTTPException(404, "Item not found")` when it is absent. -/
def get_item (s : Store) (item_id : Int) : Except HTTPException ItemDB :=
  match s.find item_id with
  | none => .error ⟨404, "Item not found"⟩
  | some item => .ok item

/-- `POST /items`: `create_item` builds
`ItemDB(**item.model_dump(exclude_unset=True))`, adds it and commits.
Constructor keywords that were unset in the body fall back to the column
defaults: `id` to the autoincrement sequence (an explicitly null `id` also
autoincrements, since `ItemDB(id=None)` leaves the key to be generated),
`available` to `True`, `description` to NULL.  An explicitly supplied `id`
bypasses the sequence; inserting a key that already exists violates the
primary-key constraint, which surfaces as a 500 and leaves the table
unchanged (an automatically drawn key consumes the sequence value even when
the insert fails). -/
def create_item (s : Store) (item : Item) :
    Except HTTPException ItemDB × Store :=
  let descv : Option String :=
    match item.description with
    | some d => d
    | none => none
  let availv : Bool := item.available.getD true
  match item.id with
  | some (some v) =>
      if (s.find v).isSome then
        (.error ⟨500, "Internal Server Error"⟩, s)
      else
        let row : ItemDB := ⟨v, some item.name, descv, some item.price, some availv⟩
        (.ok row, ⟨s.rows ++ [row], s.nextId⟩)
  | _ =>
      let v := s.nextId
      if (s.find v).isSome then
        (.error ⟨500, "Internal Server Error"⟩, ⟨s.rows, v + 1⟩)
      else
        let row : ItemDB := ⟨v, some item.name, descv, some item.price, some availv⟩
        (.ok row, ⟨s.rows ++ [row], v + 1⟩)

/-- `PUT /items/(item_id)`: `update_item` fetches the row (404 when
absent), then `setattr`s exactly the fields of
`updated_item.model_dump(exclude_unset=True)` onto it and commits.  `name`
and `price` are required in the `Item` body so they are always written;
`description` and `available` are written only when explicitly present; an
explicitly present `id` is written too, moving the row to a new primary
key.  Committing `id=None` (NOT NULL violation) or an `id` already used by
another row (unique violation) fails the transaction: a 500, table
unchanged. -/
def update_item (s : Store) (item_id : Int) (updated_item : Item) :
    Except HTTPException ItemDB × Store :=
  match s.find item_id with
  | none => (.error ⟨404, "Item not found"⟩, s)
  | some db_item =>
      let newId : Option Int :=
        match updated_item.id with
        | none => some db_item.id
        | some (some v) => some v
        | some none => none
      match newId with
      | none => (.error ⟨500, "Internal Server Error"⟩, s)
      | some nid =>
          if nid ≠ db_item.id ∧ (s.find nid).isSome then
            (.error ⟨500, "Internal Server Error"⟩, s)
          else
            let row : ItemDB :=
              { id := nid
                name := some updated_item.name
                description :=
                  match updated_item.description with
                  | some d => d
                  | none => db_item.description
                price := some updated_item.price
                available :=
                  match updated_item.available with
                  | some b => some b
                  | none => db_item.available }
            (.ok row,
             ⟨s.rows.map (fun r => if r.id == item_id then row else r), s.nextId⟩)

/-- `PATCH /items/(item_id)`: `patch_item` fetches the row (404 when
absent), then `setattr`s exactly the fields of
`item_data.model_dump(exclude_unset=True)` onto it and commits.  The
`ItemUpdate` model has no `id` field and every column it can touch is
nullable, so the commit always succeeds. -/
def patch_item (s : Store) (item_id : Int) (item_data : ItemUpdate) :
    Except HTTPException ItemDB × Store :=
  match s.find item_id with
  | none => (.error ⟨404, "Item not found"⟩, s)
  | some db_item =>
      let row : ItemDB :=
        { id := db_item.id
          name := item_data.name.getD db_item.name
          description := item_data.description.getD db_item.description
          price := item_data.price.getD db_item.price
          available := item_data.available.getD db_item.available }
      (.ok row,
       ⟨s.rows.map (fun r => if r.id == item_id then row else r), s.nextId⟩)

/-- `DELETE /items/(item_id)`: `delete_item` fetches the row (404 when
absent), deletes it, and returns the JSON object whose single key `detail`
holds the returned string. -/
def delete_item (s : Store) (item_id : Int) :
    Except HTTPException String × Store :=
  match s.find item_id with
  | none => (.error ⟨404, "Item not found"⟩, s)
  | some _ =>
      (.ok ("Item " ++ toString item_id ++ " deleted"),
       ⟨s.rows.filter (fun r => r.id != item_id), s.nextId⟩)

/-- The full POST pipeline: FastAPI validates the body against `Item`
before the handler runs; a validation failure is answered with a 422 and
the handler (hence storage) is never reached. -/
def handle_post (s : Store) (body : JObj) :
    Except HTTPException ItemDB × Store :=
  match parseItem body with
  | none => (.error ⟨422, "Unprocessable Entity"⟩, s)
  | some item => create_item s item

/-- The full PUT pipeline: body validated against `Item` before the
handler runs. -/
def handle_put (s : Store) (item_id : Int) (body : JObj) :
    Except HTTPException ItemDB × Store :=
  match parseItem body with
  | none => (.error ⟨422, "Unprocessable Entity"⟩, s)
  | some item => update_item s item_id item

/-- The full PATCH pipeline: body validated against `ItemUpdate` before
the handler runs. -/
def handle_patch (s : Store) (item_id : Int) (body : JObj) :
    Except HTTPException ItemDB × Store :=
  match parseItemUpdate body with
  | none => (.error ⟨422, "Unprocessable Entity"⟩, s)
  | some item => patch_item s item_id item

/-- One incoming request, for reasoning about sequences of operations.
The read-only routes are included for completeness; they do not touch the
store. -/
inductive Request where
  | rootReq
  | listReq
  | getReq (item_id : Int)
  | postReq (body : Item)
  | putReq (item_id : Int) (body : Item)
  | patchReq (item_id : Int) (body : ItemUpdate)
  | deleteReq (item_id : Int)
deriving DecidableEq

/-- The store after handling one request. -/
def step (s : Store) : Request → Store
  | .rootReq => s
  | .listReq => s
  | .getReq _ => s
  | .postReq b => (create_item s b).2
  | .putReq i b => (update_item s i b).2
  | .patchReq i u => (patch_item s i u).2
  | .deleteReq i => (delete_item s i).2

/-- The store after handling a sequence of requests. -/
def run (s : Store) (ops : List Request) : Store :=
  ops.foldl step s

/-- A request explicitly supplies the id `x` when its body carries an
explicitly present, non-null `id` field equal to `x` — possible only for
POST and PUT, whose `Item` body has an `id` field. -/
def Request.suppliesId (x : Int) : Request → Prop
  | .postReq b => b.id = some (some x)
  | .putReq _ b => b.id = some (some x)
  | _ => False

instance (x : Int) (r : Request) : Decidable (r.suppliesId x) := by
  cases r <;> simp [Request.suppliesId] <;> infer_instance

/-! Concrete payloads and stores, used to instantiate the theorems below on
the inputs named by the specification and the test suite. -/

/-- The create payload of the test suite: only `name` and `price`
supplied. -/
def itemSeed : Item := ⟨none, "Test Item", none, 10, none⟩

/-- The row created from `itemSeed` in a fresh database. -/
def rowSeed : ItemDB := ⟨1, some "Test Item", none, some 10, some true⟩

/-- The store after POSTing `itemSeed` to a fresh database. -/
def storeOne : Store := (create_item Store.empty itemSeed).2

/-- A create payload with name "A" and price 10.0, as in the partial-update
example of the specification. -/
def itemA : Item := ⟨none, "A", none, 10, none⟩

/-- The row created from `itemA` in a fresh database. -/
def rowA : ItemDB := ⟨1, some "A", none, some 10, some true⟩

/-- The store after POSTing `itemA` to a fresh database. -/
def storeA : Store := (create_item Store.empty itemA).2

/-- The PATCH body that sets only the name, to "B". -/
def patchOnlyNameB : ItemUpdate := ⟨some (some "B"), none, none, none⟩

/-- The row `rowA` after PATCHing only the name to "B". -/
def rowB : ItemDB := ⟨1, some "B", none, some 10, some true⟩

/-- A full PUT payload that explicitly supplies `id` equal to 2. -/
def putWithId2 : Item := ⟨some (some 2), "A2", none, 3, none⟩

/-- A full PUT payload supplying only `name` and `price`. -/
def putNamePrice : Item := ⟨none, "Updated Item", none, 20, none⟩

/-- A create payload that explicitly supplies `id` equal to 1. -/
def postWithId1 : Item := ⟨some (some 1), "B", none, 2, none⟩

/-- A request body that validates against neither `Item` nor `ItemUpdate`:
`name` holds a number where a string is required. -/
def badBody : JObj := [("name", JValue.num 5), ("price", JValue.num 10)]

/-! Helper lemmas about primary-key lookup. -/

lemma Store.find_eq_none_iff (s : Store) (x : Int) :
    s.find x = none ↔ ∀ r ∈ s.rows, r.id ≠ x := by
  simp [Store.find, List.find?_eq_none]

lemma Store.find_eq_some_elim {s : Store} {x : Int} {r : ItemDB}
    (h : s.find x = some r) : r.id = x ∧ r ∈ s.rows := by
  refine ⟨?_, List.mem_of_find?_eq_some h⟩
  simpa using List.find?_some h

lemma find?_append_of_none {p : ItemDB → Bool} {l : List ItemDB}
    (h : l.find? p = none) (m : List ItemDB) :
    (l ++ m).find? p = m.find? p := by
  rw [List.find?_append, h, Option.none_or]

lemma find?_map_update (rows : List ItemDB) (i : Int) (row : ItemDB)
    (h : row.id = i) :
    (rows.map (fun r => if r.id == i then row else r)).find?
        (fun r => r.id == i)
      = (rows.find? (fun r => r.id == i)).map (fun _ => row) := by
  induction rows with
  | nil => rfl
  | cons a t ih =>
      by_cases ha : a.id = i
      · simp [ha, h]
      · simp only [List.map_cons]
        rw [if_neg (by simpa using ha),
          List.find?_cons_of_neg _ (by simpa using ha),
          List.find?_cons_of_neg _ (by simpa using ha), ih]

lemma forall_ne_map_update {rows : List ItemDB} {i x : Int} {row : ItemDB}
    (hrow : row.id ≠ x) (h : ∀ r ∈ rows, r.id ≠ x) :
    ∀ r ∈ rows.map (fun r => if r.id == i then row else r), r.id ≠ x := by
  intro r hr
  rcases List.mem_map.mp hr with ⟨a, ha, rfl⟩
  by_cases hai : a.id = i
  · simpa [hai] using hrow
  · simpa [hai] using h a ha

lemma forall_ne_filtered {rows : List ItemDB} {x : Int} :
    ∀ r ∈ rows.filter (fun r => r.id != x), r.id ≠ x := by
  intro r hr
  simpa using (List.mem_filter.mp hr).2

lemma forall_ne_append {rows : List ItemDB} {x : Int} {row : ItemDB}
    (h : ∀ r ∈ rows, r.id ≠ x) (hrow : row.id ≠ x) :
    ∀ r ∈ rows ++ [row], r.id ≠ x := by
  intro r hr
  rcases List.mem_append.mp hr with hr | hr
  · exact h r hr
  · simpa [List.mem_singleton.mp hr] using hrow

/-- C7: on an id with no stored row, GET, PUT, PATCH and DELETE all answer
404 with detail "Item not found". -/
theorem unknown_id_answers_404 (s : Store) (i : Int) (b : Item)
    (u : ItemUpdate) (h : s.find i = none) :
    get_item s i = .error ⟨404, "Item not found"⟩ ∧
    update_item s i b = (.error ⟨404, "Item not found"⟩, s) ∧
    patch_item s i u = (.error ⟨404, "Item not found"⟩, s) ∧
    delete_item s i = (.error ⟨404, "Item not found"⟩, s) := by
  simp [get_item, update_item, patch_item, delete_item, h]

/-- Witness for C7: GET/PUT/PATCH/DELETE of id 999 on an empty store. -/
theorem unknown_id_answers_404_witness :
    Store.empty.find 999 = none ∧
    (get_item Store.empty 999 = .error ⟨404, "Item not found"⟩ ∧
     update_item Store.empty 999 itemSeed =
       (.error ⟨404, "Item not found"⟩, Store.empty) ∧
     patch_item Store.empty 999 patchOnlyNameB =
       (.error ⟨404, "Item not found"⟩, Store.empty) ∧
     delete_item Store.empty 999 = (.error ⟨404, "Item not found"⟩, Store.empty)) :=
  ⟨rfl, unknown_id_answers_404 Store.empty 999 itemSeed patchOnlyNameB rfl⟩

/-- C10: a PUT, PATCH or DELETE aimed at an id with no stored row returns
status 404 and leaves the store exactly as it was. -/
theorem unknown_id_mutations_leave_store_unchanged (s : Store) (i : Int)
    (b : Item) (u : ItemUpdate) (h : s.find i = none) :
    (update_item s i b).2 = s ∧ statusOf (update_item s i b).1 = 404 ∧
    (patch_item s i u).2 = s ∧ statusOf (patch_item s i u).1 = 404 ∧
    (delete_item s i).2 = s ∧ statusOf (delete_item s i).1 = 404 := by
  simp [update_item, patch_item, delete_item, statusOf, h]

/-- Witness for C10: failed mutations of id 7 on the one-item store. -/
theorem unknown_id_mutations_leave_store_unchanged_witness :
    storeOne.find 7 = none ∧
    ((update_item storeOne 7 itemSeed).2 = storeOne ∧
     statusOf (update_item storeOne 7 itemSeed).1 = 404 ∧
     (patch_item storeOne 7 patchOnlyNameB).2 = storeOne ∧
     statusOf (patch_item storeOne 7 patchOnlyNameB).1 = 404 ∧
     (delete_item storeOne 7).2 = storeOne ∧
     statusOf (delete_item storeOne 7).1 = 404) :=
  ⟨rfl, unknown_id_mutations_leave_store_unchanged storeOne 7 itemSeed
    patchOnlyNameB rfl⟩

/-- C3: a create payload supplying only `name` and `price` yields a 200
response whose body has the storage-generated integer id, the supplied
name and price, `available` true and `description` null, and the store
gains exactly that row. -/
theorem create_with_name_price_only (s : Store) (b : Item)
    (hid : b.id = none) (hdesc : b.description = none)
    (havail : b.available = none) (hfresh : s.find s.nextId = none) :
    create_item s b =
      (.ok ⟨s.nextId, some b.name, none, some b.price, some true⟩,
       ⟨s.rows ++ [⟨s.nextId, some b.name, none, some b.price, some true⟩],
        s.nextId + 1⟩) ∧
    statusOf (create_item s b).1 = 200 ∧
    serialize ⟨s.nextId, some b.name, none, some b.price, some true⟩ =
      some ⟨some s.nextId, b.name, none, b.price, true⟩ := by
  have h : create_item s b =
      (.ok ⟨s.nextId, some b.name, none, some b.price, some true⟩,
       ⟨s.rows ++ [⟨s.nextId, some b.name, none, some b.price, some true⟩],
        s.nextId + 1⟩) := by
    simp [create_item, hid, hdesc, havail, hfresh]
  refine ⟨h, ?_, rfl⟩
  rw [h]
  rfl

/-- Witness for C3: POSTing name "Test Item", price 10.0 to an empty
store. -/
theorem create_with_name_price_only_witness :
    itemSeed.id = none ∧ itemSeed.description = none ∧
    itemSeed.available = none ∧ Store.empty.find Store.empty.nextId = none ∧
    (create_item Store.empty itemSeed =
      (.ok ⟨1, some "Test Item", none, some 10, some true⟩,
       ⟨[⟨1, some "Test Item", none, some 10, some true⟩], 2⟩) ∧
     statusOf (create_item Store.empty itemSeed).1 = 200 ∧
     serialize ⟨1, some "Test Item", none, some 10, some true⟩ =
       some ⟨some 1, "Test Item", none, 10, true⟩) :=
  ⟨rfl, rfl, rfl, rfl,
   create_with_name_price_only Store.empty itemSeed rfl rfl rfl rfl⟩

/-- C1: a successful PUT overwrites only the fields explicitly present in
the body; `description`, `available` (and `id`) keep their stored values
when omitted, while the always-present `name` and `price` are written. -/
theorem put_overwrites_only_present_fields (s : Store) (item_id : Int)
    (b : Item) (db_item r : ItemDB) (s' : Store)
    (hfind : s.find item_id = some db_item)
    (hok : update_item s item_id b = (.ok r, s')) :
    (b.description = none → r.description = db_item.description) ∧
    (b.available = none → r.available = db_item.available) ∧
    (b.id = none → r.id = db_item.id) ∧
    r.name = some b.name ∧ r.price = some b.price ∧
    s'.rows = s.rows.map (fun t => if t.id == item_id then r else t) := by
  simp only [update_item, hfind] at hok
  split at hok
  · simp at hok
  · rename_i nid heq
    split at hok
    · simp at hok
    · simp only [Prod.mk.injEq, Except.ok.injEq] at hok
      obtain ⟨hr, hs⟩ := hok
      subst hr
      refine ⟨?_, ?_, ?_, rfl, rfl, by rw [← hs]⟩
      · intro hd; simp [hd]
      · intro ha; simp [ha]
      · intro hb; rw [hb] at heq
        simpa using heq.symm

/-- Witness for C1: PUT with only name and price on the one-item store
keeps description, available and id. -/
theorem put_overwrites_only_present_fields_witness :
    storeOne.find 1 = some rowSeed ∧
    update_item storeOne 1 putNamePrice =
      (.ok ⟨1, some "Updated Item", none, some 20, some true⟩,
       ⟨[⟨1, some "Updated Item", none, some 20, some true⟩], 2⟩) ∧
    ((putNamePrice.description = none →
        (⟨1, some "Updated Item", none, some 20, some true⟩ : ItemDB).description
          = rowSeed.description) ∧
     (putNamePrice.available = none →
        (⟨1, some "Updated Item", none, some 20, some true⟩ : ItemDB).available
          = rowSeed.available) ∧
     (putNamePrice.id = none →
        (⟨1, some "Updated Item", none, some 20, some true⟩ : ItemDB).id
          = rowSeed.id) ∧
     (⟨1, some "Updated Item", none, some 20, some true⟩ : ItemDB).name
       = some putNamePrice.name ∧
     (⟨1, some "Updated Item", none, some 20, some true⟩ : ItemDB).price
       = some putNamePrice.price ∧
     (⟨[⟨1, some "Updated Item", none, some 20, some true⟩], 2⟩ : Store).rows
       = storeOne.rows.map (fun t =>
           if t.id == 1 then ⟨1, some "Updated Item", none, some 20, some true⟩
           else t)) :=
  ⟨rfl, rfl,
   put_overwrites_only_present_fields storeOne 1 putNamePrice rowSeed
     ⟨1, some "Updated Item", none, some 20, some true⟩
     ⟨[⟨1, some "Updated Item", none, some 20, some true⟩], 2⟩ rfl rfl⟩

/-- C4: a successful create followed by a GET of the returned id yields
exactly the created row, field for field. -/
theorem create_then_get_roundtrip (s : Store) (b : Item) (r : ItemDB)
    (s' : Store) (h : create_item s b = (.ok r, s')) :
    get_item s' r.id = .ok r := by
  simp only [create_item] at h
  split at h
  case _ v hb =>
    split at h
    · simp at h
    · rename_i hguard
      simp only [Prod.mk.injEq, Except.ok.injEq] at h
      obtain ⟨hr, hs⟩ := h
      subst hr; subst hs
      have hnone : s.rows.find? (fun t => t.id == v) = none := by
        simpa [Store.find] using Option.not_isSome_iff_eq_none.mp hguard
      simp only [get_item, Store.find]
      rw [find?_append_of_none hnone]
      simp
  case _ hb =>
    split at h
    · simp at h
    · rename_i hguard
      simp only [Prod.mk.injEq, Except.ok.injEq] at h
      obtain ⟨hr, hs⟩ := h
      subst hr; subst hs
      have hnone : s.rows.find? (fun t => t.id == s.nextId) = none := by
        simpa [Store.find] using Option.not_isSome_iff_eq_none.mp hguard
      simp only [get_item, Store.find]
      rw [find?_append_of_none hnone]
      simp

/-- Witness for C4: create name "Test Item", price 10.0 on an empty store,
then GET the returned id. -/
theorem create_then_get_roundtrip_witness :
    create_item Store.empty itemSeed = (.ok rowSeed, storeOne) ∧
    get_item storeOne rowSeed.id = .ok rowSeed :=
  ⟨rfl, create_then_get_roundtrip Store.empty itemSeed rowSeed storeOne rfl⟩

/-- C5: a PATCH overwrites only the fields explicitly present in the body;
every omitted field keeps its stored value, and a present name is
written. -/
theorem patch_preserves_unset_fields (s : Store) (item_id : Int)
    (u : ItemUpdate) (db_item r : ItemDB) (s' : Store)
    (hfind : s.find item_id = some db_item)
    (hok : patch_item s item_id u = (.ok r, s')) :
    (u.name = none → r.name = db_item.name) ∧
    (u.description = none → r.description = db_item.description) ∧
    (u.price = none → r.price = db_item.price) ∧
    (u.available = none → r.available = db_item.available) ∧
    (∀ nv, u.name = some nv → r.name = nv) ∧
    r.id = db_item.id := by
  simp only [patch_item, hfind, Prod.mk.injEq, Except.ok.injEq] at hok
  obtain ⟨hr, hs⟩ := hok
  subst hr
  refine ⟨?_, ?_, ?_, ?_, ?_, rfl⟩
  · intro h; simp [h]
  · intro h; simp [h]
  · intro h; simp [h]
  · intro h; simp [h]
  · intro nv h; simp [h]

/-- Witness for C5: PATCH of only the name, to "B", on the store holding
the item with name "A" and price 10.0: the price is still 10.0 and the
name is "B". -/
theorem patch_preserves_unset_fields_witness :
    storeA.find 1 = some rowA ∧
    patch_item storeA 1 patchOnlyNameB = (.ok rowB, ⟨[rowB], 2⟩) ∧
    rowB.price = some 10 ∧ rowB.name = some "B" ∧
    ((patchOnlyNameB.name = none → rowB.name = rowA.name) ∧
     (patchOnlyNameB.description = none → rowB.description = rowA.description) ∧
     (patchOnlyNameB.price = none → rowB.price = rowA.price) ∧
     (patchOnlyNameB.available = none → rowB.available = rowA.available) ∧
     (∀ nv, patchOnlyNameB.name = some nv → rowB.name = nv) ∧
     rowB.id = rowA.id) :=
  ⟨rfl, rfl, rfl, rfl,
   patch_preserves_unset_fields storeA 1 patchOnlyNameB rowA rowB
     ⟨[rowB], 2⟩ rfl rfl⟩

/-- C8: DELETE of a stored id answers 200 with detail string
"Item <id> deleted" (the numeric id substituted), and the row is gone from
the store. -/
theorem delete_existing_row (s : Store) (i : Int) (db_item : ItemDB)
    (h : s.find i = some db_item) :
    delete_item s i =
      (.ok ("Item " ++ toString i ++ " deleted"),
       ⟨s.rows.filter (fun r => r.id != i), s.nextId⟩) ∧
    statusOf (delete_item s i).1 = 200 ∧
    (delete_item s i).2.find i = none := by
  have hd : delete_item s i =
      (.ok ("Item " ++ toString i ++ " deleted"),
       ⟨s.rows.filter (fun r => r.id != i), s.nextId⟩) := by
    simp [delete_item, h]
  refine ⟨hd, by rw [hd]; rfl, ?_⟩
  rw [hd]
  exact (Store.find_eq_none_iff _ _).mpr forall_ne_filtered

/-- Witness for C8: DELETE of id 1 on the one-item store. -/
theorem delete_existing_row_witness :
    storeOne.find 1 = some rowSeed ∧
    (delete_item storeOne 1 =
       (.ok ("Item " ++ toString (1 : Int) ++ " deleted"),
        ⟨storeOne.rows.filter (fun r => r.id != 1), storeOne.nextId⟩) ∧
     statusOf (delete_item storeOne 1).1 = 200 ∧
     (delete_item storeOne 1).2.find 1 = none) :=
  ⟨rfl, delete_existing_row storeOne 1 rowSeed rfl⟩

/-- C9: a request body that fails schema validation is answered with a 422
before the handler runs, and the stored table is left exactly as it was. -/
theorem invalid_body_rejected_before_storage (s : Store) (i : Int)
    (body : JObj) :
    (parseItem body = none →
       handle_post s body = (.error ⟨422, "Unprocessable Entity"⟩, s) ∧
       handle_put s i body = (.error ⟨422, "Unprocessable Entity"⟩, s)) ∧
    (parseItemUpdate body = none →
       handle_patch s i body = (.error ⟨422, "Unprocessable Entity"⟩, s)) := by
  constructor
  · intro h
    exact ⟨by simp [handle_post, h], by simp [handle_put, h]⟩
  · intro h
    simp [handle_patch, h]

/-- Witness for C9: a body whose `name` is a number fails validation for
both models; POST, PUT and PATCH with it leave the one-item store
untouched. -/
theorem invalid_body_rejected_before_storage_witness :
    parseItem badBody = none ∧ parseItemUpdate badBody = none ∧
    (handle_post storeOne badBody =
       (.error ⟨422, "Unprocessable Entity"⟩, storeOne) ∧
     handle_put storeOne 1 badBody =
       (.error ⟨422, "Unprocessable Entity"⟩, storeOne)) ∧
    handle_patch storeOne 1 badBody =
      (.error ⟨422, "Unprocessable Entity"⟩, storeOne) :=
  ⟨rfl, rfl,
   (invalid_body_rejected_before_storage storeOne 1 badBody).1 rfl,
   (invalid_body_rejected_before_storage storeOne 1 badBody).2 rfl⟩

/-- C2 counterexample: a PUT whose body explicitly supplies `id = 2` moves
the stored row from id 1 to id 2 — the stored item's id changes, so id is
not immutable under PUT. -/
theorem put_with_explicit_id_changes_id_cex :
    update_item storeOne 1 putWithId2 =
      (.ok ⟨2, some "A2", none, some 3, some true⟩,
       ⟨[⟨2, some "A2", none, some 3, some true⟩], 2⟩) ∧
    get_item (update_item storeOne 1 putWithId2).2 1 =
      .error ⟨404, "Item not found"⟩ ∧
    get_item (update_item storeOne 1 putWithId2).2 2 =
      .ok ⟨2, some "A2", none, some 3, some true⟩ :=
  ⟨rfl, rfl, rfl⟩

/-- C2 amended: the stored id never changes under PATCH, and never changes
under a PUT whose body does not explicitly supply an `id` field: in both
cases the row returned keeps the id it was looked up under and is stored
under it. -/
theorem id_unchanged_without_explicit_id (s : Store) (item_id : Int)
    (b : Item) (u : ItemUpdate) (r r' : ItemDB) (s' s'' : Store)
    (hb : b.id = none)
    (hput : update_item s item_id b = (.ok r, s'))
    (hpatch : patch_item s item_id u = (.ok r', s'')) :
    r.id = item_id ∧ s'.find item_id = some r ∧
    r'.id = item_id ∧ s''.find item_id = some r' := by
  cases hfind : s.find item_id with
  | none =>
      simp [update_item, hfind] at hput
  | some db_item =>
      obtain ⟨hdbid, _⟩ := Store.find_eq_some_elim hfind
      simp only [update_item, hfind, hb] at hput
      rw [if_neg (by simp)] at hput
      simp only [Prod.mk.injEq, Except.ok.injEq] at hput
      obtain ⟨hr, hs⟩ := hput
      simp only [patch_item, hfind, Prod.mk.injEq, Except.ok.injEq] at hpatch
      obtain ⟨hr', hs'⟩ := hpatch
      subst hr; subst hr'; subst hs; subst hs'
      have hgen : ∀ row : ItemDB, row.id = item_id →
          (Store.mk (s.rows.map fun t => if t.id == item_id then row else t)
            s.nextId).find item_id = some row := by
        intro row hrow
        refine (find?_map_update s.rows item_id row hrow).trans ?_
        rw [show s.rows.find? (fun t => t.id == item_id) = some db_item from hfind]
        rfl
      exact ⟨hdbid, hgen _ hdbid, hdbid, hgen _ hdbid⟩

/-- Witness for C2 amended: a PUT without an id field and a PATCH on the
one-item store both keep id 1. -/
theorem id_unchanged_without_explicit_id_witness :
    putNamePrice.id = none ∧
    update_item storeOne 1 putNamePrice =
      (.ok ⟨1, some "Updated Item", none, some 20, some true⟩,
       ⟨[⟨1, some "Updated Item", none, some 20, some true⟩], 2⟩) ∧
    patch_item storeOne 1 patchOnlyNameB =
      (.ok ⟨1, some "B", none, some 10, some true⟩,
       ⟨[⟨1, some "B", none, some 10, some true⟩], 2⟩) ∧
    ((⟨1, some "Updated Item", none, some 20, some true⟩ : ItemDB).id = 1 ∧
     (⟨[⟨1, some "Updated Item", none, some 20, some true⟩], 2⟩ : Store).find 1
       = some ⟨1, some "Updated Item", none, some 20, some true⟩ ∧
     (⟨1, some "B", none, some 10, some true⟩ : ItemDB).id = 1 ∧
     (⟨[⟨1, some "B", none, some 10, some true⟩], 2⟩ : Store).find 1
       = some ⟨1, some "B", none, some 10, some true⟩) :=
  ⟨rfl, rfl, rfl,
   id_unchanged_without_explicit_id storeOne 1 putNamePrice patchOnlyNameB
     ⟨1, some "Updated Item", none, some 20, some true⟩
     ⟨1, some "B", none, some 10, some true⟩
     ⟨[⟨1, some "Updated Item", none, some 20, some true⟩], 2⟩
     ⟨[⟨1, some "B", none, some 10, some true⟩], 2⟩ rfl rfl rfl⟩

/-- C6 counterexample: after deleting id 1, a later POST whose body
explicitly supplies `id = 1` succeeds and assigns id 1 again, and a later
GET of id 1 answers 200 — ids can be reused and the 404 is not
permanent. -/
theorem deleted_id_reused_cex :
    delete_item storeOne 1 = (.ok "Item 1 deleted", ⟨[], 2⟩) ∧
    create_item ⟨[], 2⟩ postWithId1 =
      (.ok ⟨1, some "B", none, some 2, some true⟩,
       ⟨[⟨1, some "B", none, some 2, some true⟩], 2⟩) ∧
    get_item ⟨[⟨1, some "B", none, some 2, some true⟩], 2⟩ 1 =
      .ok ⟨1, some "B", none, some 2, some true⟩ :=
  ⟨rfl, rfl, rfl⟩

/-- One request that does not explicitly supply id `x` cannot reintroduce
a row with id `x`, provided `x` is already below the id sequence. -/
lemma step_preserves_absent (x : Int) (s : Store) (req : Request)
    (hreq : ¬ req.suppliesId x)
    (h1 : ∀ t ∈ s.rows, t.id ≠ x) (h2 : x < s.nextId) :
    (∀ t ∈ (step s req).rows, t.id ≠ x) ∧ x < (step s req).nextId := by
  cases req with
  | rootReq => exact ⟨h1, h2⟩
  | listReq => exact ⟨h1, h2⟩
  | getReq i => exact ⟨h1, h2⟩
  | postReq b =>
      simp only [step, create_item]
      split
      · rename_i v heq
        have hvx : v ≠ x := by
          intro hv
          exact hreq (by simp [Request.suppliesId, heq, hv])
        split
        · exact ⟨h1, h2⟩
        · exact ⟨forall_ne_append h1 hvx, h2⟩
      · have hnx : s.nextId ≠ x := by omega
        split
        · exact ⟨h1, by simpa using by omega⟩
        · exact ⟨forall_ne_append h1 hnx, by simpa using by omega⟩
  | putReq i b =>
      simp only [step, update_item]
      split
      · exact ⟨h1, h2⟩
      · rename_i db_item hfind
        have hdb : db_item.id ≠ x :=
          h1 db_item (Store.find_eq_some_elim hfind).2
        split
        · exact ⟨h1, h2⟩
        · rename_i nid heq
          have hnid : nid ≠ x := by
            rcases hb2 : b.id with _ | vv
            · rw [hb2] at heq
              simp only [Option.some.injEq] at heq
              omega
            · rcases vv with _ | v
              · rw [hb2] at heq
                simp at heq
              · rw [hb2] at heq
                simp only [Option.some.injEq] at heq
                intro hvx
                exact hreq (by simp [Request.suppliesId, hb2, heq, hvx])
          split
          · exact ⟨h1, h2⟩
          · exact ⟨forall_ne_map_update hnid h1, h2⟩
  | patchReq i u =>
      simp only [step, patch_item]
      split
      · exact ⟨h1, h2⟩
      · rename_i db_item hfind
        have hdb : db_item.id ≠ x :=
          h1 db_item (Store.find_eq_some_elim hfind).2
        exact ⟨forall_ne_map_update hdb h1, h2⟩
  | deleteReq i =>
      simp only [step, delete_item]
      split
      · exact ⟨h1, h2⟩
      · exact ⟨fun t ht => h1 t (List.mem_of_mem_filter ht), h2⟩

/-- A whole sequence of requests, none of which explicitly supplies id
`x`, cannot reintroduce a row with id `x`. -/
lemma run_preserves_absent (x : Int) (ops : List Request) :
    ∀ s : Store, (∀ r ∈ ops, ¬ r.suppliesId x) →
      (∀ t ∈ s.rows, t.id ≠ x) → x < s.nextId →
      (∀ t ∈ (run s ops).rows, t.id ≠ x) ∧ x < (run s ops).nextId := by
  induction ops with
  | nil => exact fun s _ h1 h2 => ⟨h1, h2⟩
  | cons a t ih =>
      intro s hops h1 h2
      have ha := step_preserves_absent x s a (hops a (by simp)) h1 h2
      exact ih (step s a) (fun r hr => hops r (by simp [hr])) ha.1 ha.2

/-- C6 amended: after a successful DELETE of id x, with x below the id
sequence counter (true of every automatically generated id), every later
GET of x answers 404 and no row ever carries id x again — in particular no
later create assigns x — provided no later request explicitly supplies id
x in a POST or PUT body. -/
theorem deleted_id_stays_gone_without_explicit_id (s : Store) (x : Int)
    (d : String) (s' : Store) (ops : List Request)
    (hdel : delete_item s x = (.ok d, s'))
    (hseq : x < s.nextId)
    (hops : ∀ r ∈ ops, ¬ r.suppliesId x) :
    get_item (run s' ops) x = .error ⟨404, "Item not found"⟩ ∧
    ∀ t ∈ (run s' ops).rows, t.id ≠ x := by
  have hs' : (∀ t ∈ s'.rows, t.id ≠ x) ∧ x < s'.nextId := by
    simp only [delete_item] at hdel
    split at hdel
    · simp at hdel
    · simp only [Prod.mk.injEq, Except.ok.injEq] at hdel
      obtain ⟨_, hs⟩ := hdel
      rw [← hs]
      exact ⟨forall_ne_filtered, hseq⟩
  have h := run_preserves_absent x ops s' hops hs'.1 hs'.2
  refine ⟨?_, h.1⟩
  have hnone : (run s' ops).find x = none :=
    (Store.find_eq_none_iff _ _).mpr h.1
  simp [get_item, hnone]

/-- Witness for C6 amended: delete id 1 from the one-item store, then POST
a fresh item and GET id 1: still 404, and the new item got id 2. -/
theorem deleted_id_stays_gone_witness :
    delete_item storeOne 1 = (.ok "Item 1 deleted", ⟨[], 2⟩) ∧
    (1 : Int) < storeOne.nextId ∧
    (∀ r ∈ [Request.postReq itemSeed, Request.getReq 1],
        ¬ r.suppliesId 1) ∧
    (get_item (run ⟨[], 2⟩ [Request.postReq itemSeed, Request.getReq 1]) 1 =
       .error ⟨404, "Item not found"⟩ ∧
     ∀ t ∈ (run ⟨[], 2⟩ [Request.postReq itemSeed, Request.getReq 1]).rows,
        t.id ≠ 1) :=
  ⟨rfl, by decide, by decide,
   deleted_id_stays_gone_without_explicit_id storeOne 1 "Item 1 deleted"
     ⟨[], 2⟩ [Request.postReq itemSeed, Request.getReq 1] rfl (by decide)
     (by decide)⟩

end Fast
